import Mathlib

/-!
Shallow embedding of `main.py` of the Marketing-Campaign-Performance-Dashboard
repository: a Streamlit script that loads a marketing CSV, renames campaign
columns, remaps customer dates into 2019-2023, synthesizes a Region column,
filters by sidebar controls, and fills missing years of the yearly campaign
trends with closed-form synthetic values.

Numeric columns are modelled with `ℚ` (the float arithmetic of the script read as
exact real arithmetic); `math.sin` is only ever applied at integer multiples
of `π/2`, where its exact value is rational and captured by `sinHalfPiTimes`.
-/

namespace Dashboard

/-- The four campaigns, i.e. the keys of the `COLORS` dict of `main.py`. -/
inductive Campaign where
  | springWineFestival
  | summerFruitBundle
  | autumnMeatSampler
  | winterSeafoodDiscount
deriving DecidableEq, Repr

open Campaign

/-- `yearly_trends` after the groupby at lines 230-232 of `main.py`: one row
per observed year carrying the mean response rate of each campaign column. -/
abbrev Trends : Type := List (ℤ × (Campaign → ℚ))

/-- The per-campaign series of observed yearly rates inside `yearly_trends`. -/
def campaignSeries (t : Trends) (c : Campaign) : List ℚ :=
  t.map (fun p => p.2 c)

/-- pandas `Series.min()`: `none` on an empty series. -/
def seriesMin (l : List ℚ) : Option ℚ :=
  match l with
  | [] => none
  | x :: xs => some (xs.foldl min x)

/-- pandas `Series.max()`: `none` on an empty series. -/
def seriesMax (l : List ℚ) : Option ℚ :=
  match l with
  | [] => none
  | x :: xs => some (xs.foldl max x)

/-- pandas `Series.mean()`: `none` on an empty series. -/
def seriesMean (l : List ℚ) : Option ℚ :=
  match l with
  | [] => none
  | _ => some (l.sum / l.length)

/-- `min_rates[campaign]` (line 243 of `main.py`): 0.9 times the minimum
observed yearly rate, or the 0.05 default when `yearly_trends` is empty
(line 248). -/
def min_rates (t : Trends) (c : Campaign) : ℚ :=
  match seriesMin (campaignSeries t c) with
  | some m => m * (9/10)
  | none => 5/100

/-- `max_rates[campaign]` (line 244 of `main.py`): the lesser of 1.1 times the
maximum observed yearly rate and 0.35, or the 0.25 default when
`yearly_trends` is empty (line 249). -/
def max_rates (t : Trends) (c : Campaign) : ℚ :=
  match seriesMax (campaignSeries t c) with
  | some m => min (m * (11/10)) (35/100)
  | none => 25/100

/-- `avg_rates[campaign]` (line 245 of `main.py`): the mean observed yearly
rate, or the 0.15 default when `yearly_trends` is empty (line 250). -/
def avg_rates (t : Trends) (c : Campaign) : ℚ :=
  match seriesMean (campaignSeries t c) with
  | some m => m
  | none => 15/100

/-- pandas `.unique()`: the distinct values of a series, in order of first
occurrence. -/
def uniqueList (l : List ℤ) : List ℤ :=
  l.foldl (fun acc y => if acc.contains y then acc else acc ++ [y]) []

/-- `existing_years` (line 235): the distinct years present in
`yearly_trends`, in order of first occurrence. -/
def existing_years (t : Trends) : List ℤ :=
  uniqueList (t.map Prod.fst)

/-- `all_years` (line 255). -/
def all_years : List ℤ := [2019, 2020, 2021, 2022, 2023, 2024]

/-- `missing_years` (line 258), guarded by the `len(existing_years) < 6` test
of line 253: the years of 2019-2024 absent from the data, or nothing when six
distinct years are already present. -/
def missing_years (t : Trends) : List ℤ :=
  if (existing_years t).length < 6 then
    all_years.filter (fun y => !(existing_years t).contains y)
  else
    []

/-- Exact value of `math.sin((k / 2) * math.pi)` for an integer `k`:
the script only evaluates the sine at these quarter-period points
(line 284 with `cycle = (year - 2019) / 2` and integer years). -/
def sinHalfPiTimes (k : ℤ) : ℚ :=
  if k % 4 = 0 then 0
  else if k % 4 = 1 then 1
  else if k % 4 = 2 then 0
  else -1

/-- The per-campaign trend formula of lines 266-302 of `main.py`, before
clamping: a closed-form function of the campaign, the year and the three
derived scalars (`base_value` is `avg_rates[campaign]`). -/
def genValue (c : Campaign) (year : ℤ) (minR avgR maxR : ℚ) : ℚ :=
  match c with
  | springWineFestival =>
      if year < 2021 then
        minR + (year - 2019 : ℤ) * (avgR - minR) / 3
      else
        avgR + (year - 2021 : ℤ) * (maxR - avgR) / 4
  | summerFruitBundle =>
      avgR + (1/2) * sinHalfPiTimes (year - 2019) * (maxR - minR) / 3
  | autumnMeatSampler =>
      minR + ((year : ℚ) - 2019) / 5 * (maxR - minR) * (8/10)
  | winterSeafoodDiscount =>
      if year < 2021 then
        minR + (year - 2019 : ℤ) * (maxR - minR) / 2
      else if year < 2023 then
        maxR - (year - 2021 : ℤ) * (maxR - minR) / 3
      else
        minR + (year - 2023 : ℤ) * (avgR - minR) / 2

/-- The clamp of line 305 of `main.py`:
`max(min_rates[campaign], min(value, max_rates[campaign]))`. -/
def clampRate (minR maxR v : ℚ) : ℚ :=
  max minR (min v maxR)

/-- `new_row[campaign]` for a missing year (lines 263-305): the trend formula
evaluated at the derived scalars, then clamped. -/
def syntheticValue (t : Trends) (c : Campaign) (year : ℤ) : ℚ :=
  clampRate (min_rates t c) (max_rates t c)
    (genValue c year (min_rates t c) (avg_rates t c) (max_rates t c))

/-- A concrete `yearly_trends` input with a single observed year whose rates
are all 1/2: the derived envelope degenerates (`min_rates = 9/20`,
`max_rates = 7/20`). -/
def highRateTrends : Trends := [(2020, fun _ => 1/2)]

/- ---------------- Dates and the year remapping of `load_data` ----------- -/

/-- A calendar date as carried by `Dt_Customer` (times are irrelevant to the
claims and omitted). -/
structure Date where
  year : ℤ
  month : ℕ
  day : ℕ
deriving DecidableEq, Repr

/-- `calendar.isleap` from the Python standard library. -/
def isleap (y : ℤ) : Bool :=
  y % 4 == 0 && (y % 100 != 0 || y % 400 == 0)

/-- `calendar.monthrange(y, m)[1]`: the number of days of month `m` of
year `y`. -/
def monthLength (y : ℤ) (m : ℕ) : ℕ :=
  if m = 2 then (if isleap y then 29 else 28)
  else if m = 4 ∨ m = 6 ∨ m = 9 ∨ m = 11 then 30
  else 31

/-- `sorted(original_years)` over the distinct customer years
(lines 48 and 53 of `main.py`). -/
def sortedUniqueYears (years : List ℤ) : List ℤ :=
  List.insertionSort (· ≤ ·) (uniqueList years)

/-- `year_mapping` (lines 52-55 of `main.py`): the i-th smallest distinct
original year is sent to `min_year + (i % (max_year - min_year + 1))` with
`min_year = 2019` and `max_year = 2023`. -/
def year_mapping (years : List ℤ) (y : ℤ) : ℤ :=
  2019 + (((sortedUniqueYears years).indexOf y) % (2023 - 2019 + 1) : ℕ)

/-- The date-rewriting step of the `new_dates` loop (lines 58-79 of
`main.py`) for one date: February 29 with a non-leap target year becomes
February 28; otherwise `date.replace(year=new_year)` is attempted, and the
`ValueError` fallback takes the last day of the month. -/
def remapDate (newYear : ℤ) (d : Date) : Date :=
  if d.month = 2 ∧ d.day = 29 ∧ isleap newYear = false then
    ⟨newYear, 2, 28⟩
  else if d.day ≤ monthLength newYear d.month then
    ⟨newYear, d.month, d.day⟩
  else
    ⟨newYear, d.month, monthLength newYear d.month⟩

/-- A date is valid when its month is 1..12 and its day exists in that month
of its year. -/
abbrev ValidDate (d : Date) : Prop :=
  1 ≤ d.month ∧ d.month ≤ 12 ∧ 1 ≤ d.day ∧ d.day ≤ monthLength d.year d.month

/- ---------------- Region synthesis ------------------------------------- -/

/-- The `region_map` dict of lines 88-93 of `main.py`, as the partial lookup
pandas `Series.map` performs (`none` models the NaN produced by a missing
key). -/
def region_map (k : ℤ) : Option String :=
  if k = 0 then some "North"
  else if k = 1 then some "South"
  else if k = 2 then some "East"
  else if k = 3 then some "West"
  else none

/-- The Region assignment `(df.ID % 4).map(region_map)` (line 94) for one row. -/
def regionOf (id : ℤ) : Option String :=
  region_map (id % 4)

/- ---------------- Campaign column renaming ----------------------------- -/

/-- The `campaign_mapping` dict of lines 32-37 of `main.py`. -/
def campaign_mapping (n : String) : Option String :=
  if n = "AcceptedCmp1" then some "Spring Wine Festival"
  else if n = "AcceptedCmp2" then some "Summer Fruit Bundle"
  else if n = "AcceptedCmp3" then some "Autumn Meat Sampler"
  else if n = "AcceptedCmp4" then some "Winter Seafood Discount"
  else none

/-- The column-name transformation of `df.rename(columns=campaign_mapping)`
(line 40): names in the mapping are replaced, all others kept. -/
def renameColumn (n : String) : String :=
  (campaign_mapping n).getD n

/-- A data-frame column, as a list of numeric values. -/
abbrev Column : Type := List ℚ

/-- A data frame viewed as a list of named columns. -/
abbrev Table : Type := List (String × Column)

/-- `df.rename(columns=campaign_mapping)` (line 40) viewed on the list of
named columns. -/
def renameTable (t : Table) : Table :=
  t.map (fun p => (renameColumn p.1, p.2))

/- ---------------- Rows, load_data and the dashboard guard -------------- -/

/-- A row of the CSV, restricted to the fields the claims touch. -/
structure RawRow where
  ID : ℤ
  Education : String
  Response : ℚ
  Income : ℚ
  Age : ℤ
  Dt_Customer : Date
deriving DecidableEq, Repr

/-- A row of the data frame `load_data` returns: the raw fields plus the
derived `Dt_Customer`, `Year`, `Month` and `Region` columns. -/
structure Row where
  ID : ℤ
  Education : String
  Response : ℚ
  Income : ℚ
  Age : ℤ
  Dt_Customer : Date
  Year : ℤ
  Month : ℕ
  Region : Option String
deriving DecidableEq, Repr

/-- The row-level preparation `load_data` performs after reading the CSV
(lines 42-94): remap the customer date through `year_mapping`, extract
`Year` and `Month`, and synthesize `Region` from `ID`. -/
def prepare (rows : List RawRow) : List Row :=
  let years := rows.map (fun r => r.Dt_Customer.year)
  rows.map (fun r =>
    let nd := remapDate (year_mapping years r.Dt_Customer.year) r.Dt_Customer
    { ID := r.ID, Education := r.Education, Response := r.Response,
      Income := r.Income, Age := r.Age, Dt_Customer := nd,
      Year := nd.year, Month := nd.month, Region := regionOf r.ID })

/-- `load_data` (lines 27-99): when `marketing_campaign.csv` exists the CSV
is read and prepared; otherwise an error is reported and `None` returned.
`fileExists` models the os.path.exists test on marketing_campaign.csv and `csv` the
file contents. -/
def load_data (fileExists : Bool) (csv : List RawRow) : Option (List Row) :=
  if fileExists then some (prepare csv) else none

/-- The education step of the filter block (lines 129-132): with a nonempty
multiselect keep the rows whose `Education` is selected, otherwise keep all
rows (`df.copy()`). -/
def educationFiltered (df : List Row) (selected_education : List String) :
    List Row :=
  if selected_education ≠ [] then
    df.filter (fun r => selected_education.contains r.Education)
  else
    df

/-- `filtered_df` (lines 129-136): the education step, then the region
filter when a specific region (not the All Regions option) is selected. -/
def filtered_df (df : List Row) (selected_education : List String)
    (selected_region : String) : List Row :=
  let base := educationFiltered df selected_education
  if selected_region ≠ "All Regions" then
    base.filter (fun r => r.Region == some selected_region)
  else
    base

/-- The "Overall Response Rate" KPI (line 146):
`filtered_df.Response.mean() * 100`. -/
def response_rate (df : List Row) : ℚ :=
  ((seriesMean (df.map (fun r => r.Response))).getD 0) * 100

/-- The quantities the guarded dashboard body computes from the filters that
the claims observe. -/
structure Output where
  filtered : List Row
  overallResponseRate : ℚ
  totalIncome : ℚ
deriving Repr

/-- The filter-and-KPI part of the dashboard body (lines 104-152), reached
only when `load_data` returned a data frame. -/
def render (df : List Row) (sel : List String) (reg : String) : Output :=
  let f := filtered_df df sel reg
  { filtered := f,
    overallResponseRate := response_rate f,
    totalIncome := (f.map (fun r => r.Income)).sum }

/-- The whole script after `df = load_data()`: the `if df is not None:`
guard of line 104 makes every filter, aggregation and chart conditional on a
loaded frame. -/
def dashboard (fileExists : Bool) (csv : List RawRow) (sel : List String)
    (reg : String) : Option Output :=
  match load_data fileExists csv with
  | some df => some (render df sel reg)
  | none => none

/- ---------------- Age groups ------------------------------------------- -/

/-- The pd.cut age binning of lines 194-198, with bins [20, 35, 50, 65, 90],
labels 20-34, 35-49, 50-64 and 65+, and right=False: four left-closed
right-open bins, `none` (NaN) outside them. -/
def ageGroup (age : ℤ) : Option String :=
  if 20 ≤ age ∧ age < 35 then some "20-34"
  else if 35 ≤ age ∧ age < 50 then some "35-49"
  else if 50 ≤ age ∧ age < 65 then some "50-64"
  else if 65 ≤ age ∧ age < 90 then some "65+"
  else none

/-- The rows that the groupby on Age_Group places into group `g`
(line 201); rows whose `Age_Group` is NaN belong to no group. -/
def ageGroupRows (df : List Row) (g : String) : List Row :=
  df.filter (fun r => ageGroup r.Age == some g)

/-- A concrete row builder for closed-form instances (date fields fixed). -/
def mkRow (id : ℤ) (edu : String) (resp inc : ℚ) (age : ℤ)
    (reg : Option String) : Row :=
  { ID := id, Education := edu, Response := resp, Income := inc, Age := age,
    Dt_Customer := ⟨2019, 1, 1⟩, Year := 2019, Month := 1, Region := reg }

end Dashboard

namespace Dashboard

/-- C1 (amended): for every missing year and every campaign, provided the
derived envelope is nonempty (min_rates of the campaign at most its
max_rates), the generated yearly response-rate value lies within
[min_rates, max_rates]; without that proviso the clamp of line 305 can
return a value above max_rates. -/
theorem synthetic_value_within_envelope (t : Trends) (c : Campaign) (year : ℤ)
    (hy : year ∈ missing_years t)
    (h : min_rates t c ≤ max_rates t c) :
    min_rates t c ≤ syntheticValue t c year ∧
      syntheticValue t c year ≤ max_rates t c := by
  unfold syntheticValue clampRate
  exact ⟨le_max_left _ _, max_le h (min_le_right _ _)⟩

/-- Witness for C1 at the empty-trends default rates: 2019 is missing, the
default envelope is nonempty, and the generated value respects it. -/
theorem synthetic_value_within_envelope_witness :
    (2019 : ℤ) ∈ missing_years ([] : Trends) ∧
      min_rates ([] : Trends) Campaign.springWineFestival ≤
        max_rates ([] : Trends) Campaign.springWineFestival ∧
      min_rates ([] : Trends) Campaign.springWineFestival ≤
        syntheticValue ([] : Trends) Campaign.springWineFestival 2019 := by
  have hmem : (2019 : ℤ) ∈ missing_years ([] : Trends) := by decide
  have hle : min_rates ([] : Trends) Campaign.springWineFestival ≤
      max_rates ([] : Trends) Campaign.springWineFestival := by
    norm_num [min_rates, max_rates, campaignSeries, seriesMin, seriesMax]
  exact ⟨hmem, hle,
    (synthetic_value_within_envelope ([] : Trends) Campaign.springWineFestival 2019 hmem hle).1⟩

/-- C1 counterexample: with one observed year whose rates are all 1/2, the
envelope degenerates to [9/20, 7/20] and the value generated for the
missing year 2019 of the Spring Wine Festival campaign, 9/20, exceeds
max_rates = 7/20 — the claim as stated is false. -/
theorem synthetic_value_escapes_envelope :
    (2019 : ℤ) ∈ missing_years highRateTrends ∧
      max_rates highRateTrends Campaign.springWineFestival <
        syntheticValue highRateTrends Campaign.springWineFestival 2019 := by
  constructor
  · decide
  · norm_num [syntheticValue, max_rates, min_rates, avg_rates, clampRate, genValue,
      highRateTrends, campaignSeries, seriesMin, seriesMax, seriesMean, sinHalfPiTimes]

/-- C3: the synthetic trend filling is deterministic — the generated value
for a (campaign, missing year) pair is a closed-form function of only the
campaign, the year and the derived min/avg/max scalars, so any two
yearly_trends inputs yielding the same scalars yield the same value. -/
theorem synthetic_value_deterministic (t₁ t₂ : Trends) (c : Campaign) (year : ℤ)
    (hmin : min_rates t₁ c = min_rates t₂ c)
    (havg : avg_rates t₁ c = avg_rates t₂ c)
    (hmax : max_rates t₁ c = max_rates t₂ c) :
    syntheticValue t₁ c year = syntheticValue t₂ c year := by
  unfold syntheticValue
  rw [hmin, havg, hmax]

/-- Witness for C3: two different one-year inputs with equal derived rates
generate the same 2024 Summer Fruit Bundle value. -/
theorem synthetic_value_deterministic_witness :
    syntheticValue [((2020 : ℤ), fun _ => 1/10)] Campaign.summerFruitBundle 2024 =
      syntheticValue [((2021 : ℤ), fun _ => 1/10)] Campaign.summerFruitBundle 2024 :=
  synthetic_value_deterministic _ _ Campaign.summerFruitBundle 2024 rfl rfl rfl

end Dashboard

namespace Dashboard

theorem monthLength_ne_two (y y' : ℤ) (m : ℕ) (hm : m ≠ 2) :
    monthLength y m = monthLength y' m := by
  simp [monthLength, hm]

theorem monthLength_feb (y : ℤ) :
    monthLength y 2 = 28 ∨ monthLength y 2 = 29 := by
  rcases h : isleap y <;> simp [monthLength, h]

theorem day_fits_new_year (ny : ℤ) (d : Date) (hd : ValidDate d)
    (hnc : ¬(d.month = 2 ∧ d.day = 29 ∧ isleap ny = false)) :
    d.day ≤ monthLength ny d.month := by
  obtain ⟨hm1, hm2, hd1, hd2⟩ := hd
  by_cases hm : d.month = 2
  · rw [hm] at hd2 ⊢
    rcases monthLength_feb d.year with h | h <;> rw [h] at hd2
    · rcases monthLength_feb ny with h' | h' <;> omega
    · by_cases h28 : d.day ≤ 28
      · rcases monthLength_feb ny with h' | h' <;> omega
      · have hday : d.day = 29 := by omega
        have hleap : isleap ny = true := by
          cases h' : isleap ny
          · exact absurd ⟨hm, hday, h'⟩ hnc
          · rfl
        simp [monthLength, hleap, hday]
  · rw [monthLength_ne_two ny d.year d.month hm]
    exact hd2

/-- C2: load_data remaps the year of every valid customer date to
2019 + (rank of the original year among the sorted distinct years, mod 5),
which lies in 2019-2023, keeping month and day unchanged except that
February 29 becomes February 28 when the target year is not a leap year. -/
theorem date_year_remap (years : List ℤ) (d : Date) (hd : ValidDate d) :
    year_mapping years d.year =
      2019 + (((sortedUniqueYears years).indexOf d.year) % 5 : ℕ) ∧
    2019 ≤ year_mapping years d.year ∧ year_mapping years d.year ≤ 2023 ∧
    (remapDate (year_mapping years d.year) d).year = year_mapping years d.year ∧
    ((d.month = 2 ∧ d.day = 29 ∧ isleap (year_mapping years d.year) = false) →
        (remapDate (year_mapping years d.year) d).month = 2 ∧
        (remapDate (year_mapping years d.year) d).day = 28) ∧
    (¬(d.month = 2 ∧ d.day = 29 ∧ isleap (year_mapping years d.year) = false) →
        (remapDate (year_mapping years d.year) d).month = d.month ∧
        (remapDate (year_mapping years d.year) d).day = d.day) := by
  set ny := year_mapping years d.year with hny
  have hrange : 2019 ≤ ny ∧ ny ≤ 2023 := by
    rw [hny, year_mapping]
    have : ((sortedUniqueYears years).indexOf d.year) % (2023 - 2019 + 1) < 5 := by
      exact Nat.mod_lt _ (by norm_num)
    omega
  refine ⟨by rw [hny, year_mapping], hrange.1, hrange.2, ?_, ?_, ?_⟩
  · unfold remapDate
    split
    · rfl
    · split <;> rfl
  · intro hc
    simp [remapDate, hc]
  · intro hnc
    have hle := day_fits_new_year ny d hd hnc
    simp [remapDate, hnc, hle]

/-- Witness for C2: February 29, 2012 (rank 0 among 2012-2014) maps to the
non-leap year 2019 and becomes February 28. -/
theorem date_year_remap_witness :
    ValidDate ⟨2012, 2, 29⟩ ∧
      isleap (year_mapping [2012, 2013, 2014] 2012) = false ∧
      (remapDate (year_mapping [2012, 2013, 2014] 2012) ⟨2012, 2, 29⟩).month = 2 ∧
      (remapDate (year_mapping [2012, 2013, 2014] 2012) ⟨2012, 2, 29⟩).day = 28 := by
  have hv : ValidDate ⟨2012, 2, 29⟩ := by decide
  obtain ⟨h1, h2, h3, h4, h5, h6⟩ := date_year_remap [2012, 2013, 2014] ⟨2012, 2, 29⟩ hv
  have hfeb := h5 (by refine ⟨rfl, rfl, ?_⟩; decide)
  exact ⟨hv, by decide, hfeb.1, hfeb.2⟩

end Dashboard

namespace Dashboard

theorem sum_eq_countP_of_zero_one (l : List ℚ)
    (h : ∀ x ∈ l, x = 0 ∨ x = 1) :
    l.sum = l.countP (fun x => decide (x = 1)) := by
  induction l with
  | nil => simp
  | cons x xs ih =>
    have hx := h x (by simp)
    have hxs := ih (fun y hy => h y (by simp [hy]))
    rcases hx with h0 | h1
    · subst h0
      simp [List.countP_cons, hxs]
    · subst h1
      simp [List.countP_cons, hxs]
      ring

/-- C4: for a nonempty filtered dataset whose Response column holds only 0
and 1, the Overall Response Rate KPI equals 100 times the number of rows
with Response 1 divided by the number of rows. -/
theorem overall_response_rate_eq (df : List Row) (hne : df ≠ [])
    (h01 : ∀ r ∈ df, r.Response = 0 ∨ r.Response = 1) :
    response_rate df =
      100 * (df.countP (fun r => decide (r.Response = 1)) : ℚ) / df.length := by
  match df with
  | [] => exact absurd rfl hne
  | r :: rs =>
    unfold response_rate seriesMean
    simp only [List.map_cons, Option.getD_some]
    have hsum : (r.Response :: List.map (fun x => x.Response) rs).sum =
        ((r :: rs).countP (fun x => decide (x.Response = 1)) : ℚ) := by
      have h := sum_eq_countP_of_zero_one
        (List.map (fun x => x.Response) (r :: rs)) (by simpa using h01)
      rw [List.countP_map] at h
      simpa using h
    rw [hsum]
    simp only [List.length_cons, List.length_map]
    ring

/-- Witness for C4 on a concrete two-row frame with one responder: the KPI
is 100 * 1 / 2. -/
theorem overall_response_rate_eq_witness :
    response_rate [mkRow 0 "PhD" 1 10 30 (some "North"),
      mkRow 1 "Master" 0 20 40 (some "South")] = 100 * 1 / 2 := by
  have h := overall_response_rate_eq
    [mkRow 0 "PhD" 1 10 30 (some "North"), mkRow 1 "Master" 0 20 40 (some "South")]
    (by simp) (by simp [mkRow])
  simpa [mkRow] using h

end Dashboard

namespace Dashboard

/-- C5: the synthetic Region of a row is determined solely by its ID — IDs
congruent to 0, 1, 2, 3 mod 4 receive North, South, East, West
respectively, and Region always takes one of exactly these four values. -/
theorem region_from_id (id : ℤ) :
    (id % 4 = 0 → regionOf id = some "North") ∧
    (id % 4 = 1 → regionOf id = some "South") ∧
    (id % 4 = 2 → regionOf id = some "East") ∧
    (id % 4 = 3 → regionOf id = some "West") ∧
    regionOf id ∈ ([some "North", some "South", some "East", some "West"] :
      List (Option String)) := by
  have h4 : id % 4 = 0 ∨ id % 4 = 1 ∨ id % 4 = 2 ∨ id % 4 = 3 := by omega
  refine ⟨fun h => by simp [regionOf, region_map, h],
    fun h => by simp [regionOf, region_map, h],
    fun h => by simp [regionOf, region_map, h],
    fun h => by simp [regionOf, region_map, h], ?_⟩
  rcases h4 with h | h | h | h <;> simp [regionOf, region_map, h]

/-- Witness for C5 at IDs 8, 5, 6 and -1, one per residue class. -/
theorem region_from_id_witness :
    regionOf 8 = some "North" ∧ regionOf 5 = some "South" ∧
      regionOf 6 = some "East" ∧ regionOf (-1) = some "West" :=
  ⟨(region_from_id 8).1 (by decide), (region_from_id 5).2.1 (by decide),
    (region_from_id 6).2.2.1 (by decide), (region_from_id (-1)).2.2.2.1 (by decide)⟩

/-- C6: with a nonempty education multiselect, choosing a specific region
makes filtered_df exactly the rows whose Education is selected and whose
Region equals that region, while choosing the All Regions option applies
the education condition alone. -/
theorem filtered_df_spec (df : List Row) (sel : List String) (reg : String)
    (hsel : sel ≠ []) :
    (reg ≠ "All Regions" →
      filtered_df df sel reg =
        df.filter (fun r => sel.contains r.Education && r.Region == some reg)) ∧
    filtered_df df sel "All Regions" =
      df.filter (fun r => sel.contains r.Education) := by
  constructor
  · intro hreg
    simp only [filtered_df, educationFiltered, hsel, hreg, if_pos, ne_eq,
      not_false_iff, if_true, List.filter_filter]
    exact List.filter_congr (fun a _ => Bool.and_comm _ _)
  · simp [filtered_df, educationFiltered, hsel]

/-- Witness for C6 on a concrete two-row frame filtered to PhD in North. -/
theorem filtered_df_spec_witness :
    filtered_df [mkRow 0 "PhD" 1 1 30 (some "North"),
        mkRow 1 "Master" 0 1 40 (some "South")] ["PhD"] "North" =
      [mkRow 0 "PhD" 1 1 30 (some "North"),
        mkRow 1 "Master" 0 1 40 (some "South")].filter
        (fun r => (["PhD"] : List String).contains r.Education &&
          r.Region == some "North") :=
  (filtered_df_spec _ ["PhD"] "North" (by simp)).1 (by simp)

end Dashboard

namespace Dashboard

/-- C7: load_data renames exactly the four AcceptedCmp columns to the four
campaign names, leaves every other column name unchanged, and the rename
keeps the values of every column. -/
theorem rename_campaign_columns :
    renameColumn "AcceptedCmp1" = "Spring Wine Festival" ∧
    renameColumn "AcceptedCmp2" = "Summer Fruit Bundle" ∧
    renameColumn "AcceptedCmp3" = "Autumn Meat Sampler" ∧
    renameColumn "AcceptedCmp4" = "Winter Seafood Discount" ∧
    (∀ n : String,
        n ∉ (["AcceptedCmp1", "AcceptedCmp2", "AcceptedCmp3",
          "AcceptedCmp4"] : List String) →
        renameColumn n = n) ∧
    (∀ t : Table, (renameTable t).map Prod.snd = t.map Prod.snd) ∧
    (∀ t : Table, ∀ p : String × Column, p ∈ t →
        p.1 ∉ (["AcceptedCmp1", "AcceptedCmp2", "AcceptedCmp3",
          "AcceptedCmp4"] : List String) →
        p ∈ renameTable t) := by
  have hkeep : ∀ n : String,
      n ∉ (["AcceptedCmp1", "AcceptedCmp2", "AcceptedCmp3",
        "AcceptedCmp4"] : List String) → renameColumn n = n := by
    intro n hn
    simp only [List.mem_cons, List.not_mem_nil, or_false, not_or] at hn
    obtain ⟨h1, h2, h3, h4⟩ := hn
    simp [renameColumn, campaign_mapping, h1, h2, h3, h4]
  refine ⟨by decide, by decide, by decide, by decide, hkeep, ?_, ?_⟩
  · intro t
    simp [renameTable, List.map_map, Function.comp]
  · intro t p hp hn
    have hname : renameColumn p.1 = p.1 := hkeep p.1 hn
    exact List.mem_map.mpr ⟨p, hp, by simp [hname]⟩

/-- Witness for C7: the Income column keeps its name and values. -/
theorem rename_campaign_columns_witness :
    renameColumn "Income" = "Income" ∧
      (renameTable [("Income", [(1 : ℚ)])]).map Prod.snd = [[(1 : ℚ)]] := by
  obtain ⟨-, -, -, -, hkeep, hvals, -⟩ := rename_campaign_columns
  exact ⟨hkeep "Income" (by decide), hvals [("Income", [(1 : ℚ)])]⟩

/-- C8: load_data returns none exactly when marketing_campaign.csv does not
exist and a prepared frame otherwise, and the guard of line 104 then skips
all filtering, aggregation and chart construction, so the dashboard
produces nothing. -/
theorem load_data_guard (fileExists : Bool) (csv : List RawRow)
    (sel : List String) (reg : String) :
    (load_data fileExists csv = none ↔ fileExists = false) ∧
    (fileExists = true → load_data fileExists csv = some (prepare csv)) ∧
    (dashboard fileExists csv sel reg = none ↔ fileExists = false) := by
  cases fileExists <;> simp [load_data, dashboard]

/-- Witness for C8: with the file present load_data returns the prepared
frame; with it absent the dashboard produces nothing. -/
theorem load_data_guard_witness :
    load_data true [] = some (prepare []) ∧
      dashboard false [] [] "All Regions" = none :=
  ⟨(load_data_guard true [] [] "All Regions").2.1 rfl,
    (load_data_guard false [] [] "All Regions").2.2.mpr rfl⟩

/-- C9: an empty education multiselect applies no education filter — the
education stage keeps every row of the loaded dataset (rather than the
empty result an isin-filter by an empty set would give), and filtered_df
is the whole dataset under the default All Regions selection. -/
theorem empty_education_selection_keeps_all (df : List Row) :
    educationFiltered df [] = df ∧ filtered_df df [] "All Regions" = df := by
  constructor <;> simp [educationFiltered, filtered_df]

/-- C10: age grouping uses the half-open bins [20,35), [35,50), [50,65),
[65,90) — an Age below 20 or at least 90 gets no age group (NaN) and such
rows land in no group of the age-group aggregation, and the 65+ label
covers exactly ages 65 through 89. -/
theorem age_group_bins :
    (∀ age : ℤ, (ageGroup age = none ↔ (age < 20 ∨ 90 ≤ age))) ∧
    (∀ age : ℤ, (ageGroup age = some "20-34" ↔ 20 ≤ age ∧ age < 35)) ∧
    (∀ age : ℤ, (ageGroup age = some "35-49" ↔ 35 ≤ age ∧ age < 50)) ∧
    (∀ age : ℤ, (ageGroup age = some "50-64" ↔ 50 ≤ age ∧ age < 65)) ∧
    (∀ age : ℤ, (ageGroup age = some "65+" ↔ 65 ≤ age ∧ age < 90)) ∧
    (∀ df : List Row, ∀ r ∈ df, ageGroup r.Age = none →
        ∀ g : String, r ∉ ageGroupRows df g) := by
  refine ⟨?_, ?_, ?_, ?_, ?_, ?_⟩
  · intro age; unfold ageGroup; split_ifs <;> simp +decide <;> omega
  · intro age; unfold ageGroup; split_ifs <;> simp +decide <;> omega
  · intro age; unfold ageGroup; split_ifs <;> simp +decide <;> omega
  · intro age; unfold ageGroup; split_ifs <;> simp +decide <;> omega
  · intro age; unfold ageGroup; split_ifs <;> simp +decide <;> omega
  · intro df r hr hnone g
    simp [ageGroupRows, List.mem_filter, hnone]

/-- Witness for C10: age 95 gets no group, and a row aged 95 is excluded
from the 65+ group. -/
theorem age_group_bins_witness :
    ageGroup 95 = none ∧
      mkRow 0 "PhD" 0 0 95 (some "North") ∉
        ageGroupRows [mkRow 0 "PhD" 0 0 95 (some "North")] "65+" := by
  have hnone : ageGroup (mkRow 0 "PhD" 0 0 95 (some "North")).Age = none :=
    (age_group_bins.1 95).mpr (by omega)
  exact ⟨(age_group_bins.1 95).mpr (by omega),
    age_group_bins.2.2.2.2.2 [mkRow 0 "PhD" 0 0 95 (some "North")]
      (mkRow 0 "PhD" 0 0 95 (some "North")) (by simp) hnone "65+"⟩

end Dashboard
